import Mathlib

/-!
Verification development for the graduate career outcomes dashboard
(`src/app1.py`).  The script loads a record table, filters it by a
Field_of_Study category set and an inclusive University_GPA interval,
and renders ten charts plus an overview table from the filtered view.

The embedding below models the pandas/matplotlib semantics the script
relies on:

* a cell is `Option` valued; `none` stands for a missing value (NaN in
  pandas).  Numeric cells are rationals, which is faithful for the
  comparisons, sums and means the script performs.
* `Series.isin` is false on a missing value (NaN is never a member of
  the selected list, which itself is built with `dropna`).
* `Series.between(lo, hi)` is inclusive at both ends and false on a
  missing value.
* `groupby(key)[val].mean()` drops rows whose key is missing, orders
  group keys ascending, and computes the mean over the non-missing
  values of each group; a group with no non-missing value gets an
  undefined mean (NaN, modelled `none`) but is kept in the result.
* `sort_values(ascending=False)` is implemented by pandas as a stable
  ascending argsort of the non-missing values followed by a reversal of
  that indexer, with missing values appended at the end in positional
  order (`nargsort`, `na_position="last"`); `sortValuesDesc` mirrors
  exactly that.  `sort_values(ascending=True)` is the same without the
  reversal.
* `Series.unique()` keeps first-appearance order; python `sorted` and
  pandas key sorting are lexicographic on code points, modelled by
  `strLe`.
* matplotlib raises ValueError from `ax.violinplot` and `ax.boxplot` when
  handed an empty dataset list (the empty list is reshaped to a single
  empty dataset; the violin statistics then reduce an empty array, and the
  boxplot labels no longer match the dataset count), so the two builders
  calling them are fallible and return `Except`; the remaining eight
  builders accept empty data and are total.
-/

namespace CareerDashboard

/-- Lexicographic comparison of code-point lists; `charsLe a b` is true iff
`a` is at most `b` in the order python `sorted` and pandas use for strings. -/
def charsLe : List Char → List Char → Bool
  | [], _ => true
  | _ :: _, [] => false
  | a :: as, b :: bs =>
    if a.toNat < b.toNat then true else if b.toNat < a.toNat then false else charsLe as bs

/-- Code-point lexicographic order on strings. -/
def strLe (a b : String) : Bool := charsLe a.data b.data

/-- One row of the loaded CSV; every cell is optional because any cell of the
source table can be missing (NaN).  Column names follow the source. -/
structure Row where
  Field_of_Study : Option String
  University_GPA : Option ℚ
  Starting_Salary : Option ℚ
  Years_to_Promotion : Option ℚ
  Networking_Score : Option ℚ
  Job_Offers : Option ℚ
  Gender : Option String
  Career_Satisfaction : Option ℚ
  WorkLifeBalance_Score : Option ℚ
  Current_Job_Level : Option String
  Certifications : Option ℚ
deriving Repr, DecidableEq

/-- The record table is an ordered sequence of rows. -/
abbrev Table := List Row

/-- Embeds `df["Field_of_Study"].isin(selected_fields)` at one row: a missing
value is never a member (the widget options are built with `dropna`). -/
def fieldIsin (selected_fields : List String) (r : Row) : Bool :=
  match r.Field_of_Study with
  | none => false
  | some f => decide (f ∈ selected_fields)

/-- Embeds `df["University_GPA"].between(lo, hi)` at one row: inclusive at
both ends, false on a missing value. -/
def gpaBetween (lo hi : ℚ) (r : Row) : Bool :=
  match r.University_GPA with
  | none => false
  | some g => decide (lo ≤ g) && decide (g ≤ hi)

/-- The Filter Engine, `src/app1.py` lines 50-53:
`filtered = df[df["Field_of_Study"].isin(selected_fields)
  & df["University_GPA"].between(gpa_range[0], gpa_range[1])]`. -/
def filtered (df : Table) (selected_fields : List String) (lo hi : ℚ) : Table :=
  df.filter fun r => fieldIsin selected_fields r && gpaBetween lo hi r

/-- Helper for `uniqueFirst`: keeps the elements not yet seen, in order. -/
def uniqueFirstAux [DecidableEq α] (seen : List α) : List α → List α
  | [] => []
  | x :: xs => if x ∈ seen then uniqueFirstAux seen xs else x :: uniqueFirstAux (x :: seen) xs

/-- Embeds pandas `Series.unique()`: distinct values in first-appearance
order. -/
def uniqueFirst [DecidableEq α] (l : List α) : List α := uniqueFirstAux [] l

/-- Stable insertion used by `stableSortBy`: the new element `x` is placed
after every already-placed `y` with `keep y x` true. -/
def stableInsertBy (keep : α → α → Bool) (x : α) : List α → List α
  | [] => [x]
  | y :: ys => if keep y x then y :: stableInsertBy keep x ys else x :: y :: ys

/-- Stable sort: elements are inserted left to right, each placed after all
earlier elements that may stay before it, so equal elements keep their input
order.  This models the stable ascending argsort pandas `nargsort` performs
(numpy argsort is stable on the array sizes of every concrete table treated
here, and pandas builds descending orders by reversing the ascending one). -/
def stableSortBy (keep : α → α → Bool) (l : List α) : List α :=
  l.foldl (fun acc x => stableInsertBy keep x acc) []

/-- Embeds `sorted(df["Field_of_Study"].dropna().unique())`
(`src/app1.py` line 32). -/
def field_options (df : Table) : List String :=
  stableSortBy strLe (uniqueFirst (df.filterMap fun r => r.Field_of_Study))

/-- The non-missing University_GPA cells, in row order. -/
def gpaValues (df : Table) : List ℚ :=
  df.filterMap fun r => r.University_GPA

/-- Minimum of a rational list, `none` on the empty list; embeds
`Series.min()` (skips missing values, NaN when nothing remains). -/
def listMin : List ℚ → Option ℚ
  | [] => none
  | x :: xs =>
    match listMin xs with
    | none => some x
    | some m => some (min x m)

/-- Maximum of a rational list, `none` on the empty list; embeds
`Series.max()`. -/
def listMax : List ℚ → Option ℚ
  | [] => none
  | x :: xs =>
    match listMax xs with
    | none => some x
    | some m => some (max x m)

/-- Embeds lines 40-41: `gpa_min = float(df["University_GPA"].min())`,
`gpa_max = float(...max())`.  The result is `none` exactly when the column
has no non-missing value, in which case pandas yields NaN and the slider
construction is outside its domain. -/
def gpa_defaults (df : Table) : Option (ℚ × ℚ) :=
  match listMin (gpaValues df), listMax (gpaValues df) with
  | some lo, some hi => some (lo, hi)
  | _, _ => none

/-- The default filter selection built by the sidebar at load time: all
observed categories and the full observed GPA range. -/
def filter_defaults (df : Table) : Option (List String × ℚ × ℚ) :=
  match gpa_defaults df with
  | some (lo, hi) => some (field_options df, lo, hi)
  | none => none

/-- Mean of a rational list, undefined (`none`) on the empty list; embeds the
skip-missing mean pandas computes per group (NaN on an all-missing group). -/
def meanOpt (l : List ℚ) : Option ℚ :=
  if l.isEmpty then none else some (l.sum / (l.length : ℚ))

/-- The non-missing values of column `val` among the rows whose cell `key`
equals `some k`; the value list one group contributes to a grouped mean. -/
def groupVals (df : Table) (key : Row → Option α) (val : Row → Option ℚ) (k : α)
    [DecidableEq α] : List ℚ :=
  df.filterMap fun r => if key r = some k then val r else none

/-- Group keys of `groupby` on a string column: the distinct non-missing
values, ordered ascending (pandas `groupby` sorts keys by default). -/
def groupKeysStr (df : Table) (key : Row → Option String) : List String :=
  stableSortBy strLe (uniqueFirst (df.filterMap key))

/-- Embeds `data.groupby(key)[val].mean()` for a string-valued key: one entry
per distinct non-missing key, ascending, carrying the mean of the group's
non-missing values (`none` = NaN when the group has none). -/
def groupMeanStr (df : Table) (key : Row → Option String) (val : Row → Option ℚ) :
    List (String × Option ℚ) :=
  (groupKeysStr df key).map fun k => (k, meanOpt (groupVals df key val k))

/-- Group keys of `groupby` on a numeric column, ascending. -/
def groupKeysQ (df : Table) (key : Row → Option ℚ) : List ℚ :=
  stableSortBy (fun a b => decide (a ≤ b)) (uniqueFirst (df.filterMap key))

/-- Embeds `data.groupby(key)[val].mean()` for a numeric key. -/
def groupMeanQ (df : Table) (key : Row → Option ℚ) (val : Row → Option ℚ) :
    List (ℚ × Option ℚ) :=
  (groupKeysQ df key).map fun k => (k, meanOpt (groupVals df key val k))

/-- Comparison by the attached numeric value, used for `sort_values`. -/
def valueLe (a b : α × ℚ) : Bool := decide (a.2 ≤ b.2)

/-- The entries of a keyed series whose value is present, value unwrapped. -/
def presentEntries (l : List (α × Option ℚ)) : List (α × ℚ) :=
  l.filterMap fun p => match p.2 with | some v => some (p.1, v) | none => none

/-- The entries whose value is missing, in positional order. -/
def missingEntries (l : List (α × Option ℚ)) : List (α × Option ℚ) :=
  l.filter fun p => p.2.isNone

/-- Embeds `Series.sort_values(ascending=False)` the way pandas `nargsort`
computes it: stable ascending argsort of the non-missing entries, reversal of
that indexer, missing entries appended at the end in positional order. -/
def sortValuesDesc (l : List (α × Option ℚ)) : List (α × Option ℚ) :=
  ((stableSortBy valueLe (presentEntries l)).reverse.map fun p => (p.1, some p.2))
    ++ missingEntries l

/-- Embeds `Series.sort_values(ascending=True)`: stable ascending order of
the non-missing entries, missing entries appended at the end. -/
def sortValuesAsc (l : List (α × Option ℚ)) : List (α × Option ℚ) :=
  ((stableSortBy valueLe (presentEntries l)).map fun p => (p.1, some p.2))
    ++ missingEntries l

/-- Embeds `Series.sort_index()` on a numeric index (group keys are never
missing because `groupby` dropped missing keys). -/
def sortIndexQ (l : List (ℚ × Option ℚ)) : List (ℚ × Option ℚ) :=
  stableSortBy (fun a b => decide (a.1 ≤ b.1)) l

/-- Lines 73-77: `data.groupby("Field_of_Study")["Starting_Salary"].mean()
.sort_values(ascending=False)`. -/
def avg_salary_by_field (data : Table) : List (String × Option ℚ) :=
  sortValuesDesc (groupMeanStr data (fun r => r.Field_of_Study) (fun r => r.Starting_Salary))

/-- Lines 89-93: `data.groupby("Years_to_Promotion")["Starting_Salary"].mean()
.sort_index()`. -/
def avg_salary_by_years (data : Table) : List (ℚ × Option ℚ) :=
  sortIndexQ (groupMeanQ data (fun r => r.Years_to_Promotion) (fun r => r.Starting_Salary))

/-- Lines 104-108: `data.groupby("Networking_Score")["Job_Offers"].mean()
.sort_index()`. -/
def avg_offers_by_network (data : Table) : List (ℚ × Option ℚ) :=
  sortIndexQ (groupMeanQ data (fun r => r.Networking_Score) (fun r => r.Job_Offers))

/-- Line 135: `genders = data["Gender"].dropna().unique()` — distinct
non-missing genders in first-appearance order. -/
def genders (data : Table) : List String :=
  uniqueFirst (data.filterMap fun r => r.Gender)

/-- Lines 136-137: `satisfaction_data = [data[data["Gender"] == g]
["Career_Satisfaction"] for g in genders]`.  Missing satisfaction values are
kept: the comprehension selects rows only by gender. -/
def satisfaction_data (data : Table) : List (List (Option ℚ)) :=
  (genders data).map fun g =>
    (data.filter fun r => decide (r.Gender = some g)).map fun r => r.Career_Satisfaction

/-- Line 151: `fields = data["Field_of_Study"].dropna().unique()`. -/
def wlb_fields (data : Table) : List String :=
  uniqueFirst (data.filterMap fun r => r.Field_of_Study)

/-- Lines 152-153: `wlb_data = [data[data["Field_of_Study"] == f]
["WorkLifeBalance_Score"] for f in fields]`.  Missing scores are kept. -/
def wlb_data (data : Table) : List (List (Option ℚ)) :=
  (wlb_fields data).map fun f =>
    (data.filter fun r => decide (r.Field_of_Study = some f)).map fun r => r.WorkLifeBalance_Score

/-- Line 165: `job_counts = data["Current_Job_Level"].value_counts()` —
counts of the distinct non-missing job levels, sorted descending by count
(pandas builds the descending order by reversing a stable ascending one over
the first-appearance key order). -/
def job_counts (data : Table) : List (String × Nat) :=
  (stableSortBy (fun a b => decide (a.2 ≤ b.2))
    ((uniqueFirst (data.filterMap fun r => r.Current_Job_Level)).map fun k =>
      (k, (data.filterMap fun r => r.Current_Job_Level).count k))).reverse

/-- Lines 174-178: `data.groupby("Certifications")["Job_Offers"].mean()
.sort_index()`. -/
def avg_offers (data : Table) : List (ℚ × Option ℚ) :=
  sortIndexQ (groupMeanQ data (fun r => r.Certifications) (fun r => r.Job_Offers))

/-- Lines 190-194: `data.groupby("Field_of_Study")["Career_Satisfaction"]
.mean().sort_values(ascending=True)`. -/
def avg_sat (data : Table) : List (String × Option ℚ) :=
  sortValuesAsc (groupMeanStr data (fun r => r.Field_of_Study) (fun r => r.Career_Satisfaction))

/-- Declarative chart description, one constructor per chart type the script
builds.  The `noData` constructor is Modelled from the spec: the explicit
"no data" placeholder the spec requires for an empty filtered view; the
source defines no branch that could produce it. -/
inductive ChartSpec where
  | hist (values : List (Option ℚ)) (bins : Nat) (title xlabel ylabel : String)
  | bar (labels : List String) (values : List (Option ℚ)) (title xlabel ylabel : String)
  | line (xs : List ℚ) (ys : List (Option ℚ)) (title xlabel ylabel : String)
  | scatter (xs ys : List (Option ℚ)) (title xlabel ylabel : String)
  | violin (labels : List String) (series : List (List (Option ℚ))) (title xlabel ylabel : String)
  | box (labels : List String) (series : List (List (Option ℚ))) (title xlabel ylabel : String)
  | pie (labels : List String) (counts : List Nat) (title : String)
  | heatmap (labels : List String) (values : List (Option ℚ)) (title : String)
  | noData
deriving Repr, DecidableEq

/-- Lines 62-69. -/
def plot_gpa_hist (data : Table) : ChartSpec :=
  ChartSpec.hist (data.map fun r => r.University_GPA) 10
    "Histogram of University GPA" "University_GPA" "Frequency"

/-- Lines 72-85. -/
def plot_salary_by_field (data : Table) : ChartSpec :=
  ChartSpec.bar ((avg_salary_by_field data).map Prod.fst)
    ((avg_salary_by_field data).map Prod.snd)
    "Average Starting Salary by Field of Study" "Field_of_Study" "Average Starting Salary"

/-- Lines 88-100. -/
def plot_salary_by_promotion_years (data : Table) : ChartSpec :=
  ChartSpec.line ((avg_salary_by_years data).map Prod.fst)
    ((avg_salary_by_years data).map Prod.snd)
    "Average Starting Salary by Years to Promotion" "Years to Promotion" "Average Starting Salary"

/-- Lines 103-115. -/
def plot_job_offers_by_networking (data : Table) : ChartSpec :=
  ChartSpec.line ((avg_offers_by_network data).map Prod.fst)
    ((avg_offers_by_network data).map Prod.snd)
    "Average Job Offers by Networking Score" "Networking_Score" "Average Job Offers"

/-- Lines 118-130. -/
def plot_gpa_vs_promotion (data : Table) : ChartSpec :=
  ChartSpec.scatter (data.map fun r => r.Years_to_Promotion)
    (data.map fun r => r.University_GPA)
    "Do Higher GPAs Lead to Faster Promotions?" "Years to Promotion" "University GPA"

/-- Lines 133-145.  Fallible: `ax.violinplot(satisfaction_data)` raises
ValueError when the dataset list is empty, because matplotlib reshapes the
empty list into a single empty dataset and then takes the minimum of an
empty array.  The dataset list is empty exactly when the table has no
non-missing Gender.  On a non-empty dataset list every dataset holds at
least the rows defining its gender, so no further error arises and the
violin spec is returned. -/
def plot_satisfaction_by_gender (data : Table) : Except String ChartSpec :=
  if genders data = [] then
    Except.error "ValueError: zero-size array to reduction operation minimum which has no identity"
  else
    Except.ok (ChartSpec.violin (genders data) (satisfaction_data data)
      "How Does Career Satisfaction Differ by Gender?" "Gender" "Career Satisfaction")

/-- Lines 148-160.  Fallible: `ax.boxplot(wlb_data, labels=fields)` raises
ValueError when the dataset list is empty, because matplotlib reshapes the
empty list into a single empty dataset while `labels` has length zero, a
dimension mismatch.  The dataset list is empty exactly when the table has
no non-missing Field_of_Study; otherwise the labels match the datasets and
the box spec is returned. -/
def plot_worklife_by_field (data : Table) : Except String ChartSpec :=
  if wlb_fields data = [] then
    Except.error "ValueError: Dimensions of labels and X must be compatible"
  else
    Except.ok (ChartSpec.box (wlb_fields data) (wlb_data data)
      "Which Majors Achieve Better Work-Life Balance?" "Field of Study" "Work-Life Balance Score")

/-- Lines 163-170. -/
def plot_joblevel_pie (data : Table) : ChartSpec :=
  ChartSpec.pie ((job_counts data).map Prod.fst) ((job_counts data).map Prod.snd)
    "Distribution of Job Levels Among Graduates"

/-- Lines 173-185. -/
def plot_offers_vs_certifications (data : Table) : ChartSpec :=
  ChartSpec.line ((avg_offers data).map Prod.fst) ((avg_offers data).map Prod.snd)
    "Job Offers vs Certifications" "Certifications" "Average Job Offers"

/-- Lines 188-205. -/
def plot_satisfaction_heatmap (data : Table) : ChartSpec :=
  ChartSpec.heatmap ((avg_sat data).map Prod.fst) ((avg_sat data).map Prod.snd)
    "Average Career Satisfaction by Major"

/-- What one render cycle of the script puts on the page: the table fed to
`filtered.describe` (line 56) and the ten chart outcomes of lines 212-260,
in page order; a chart outcome is `Except.error` where the builder raises. -/
structure PageOutput where
  describeInput : Table
  charts : List (Except String ChartSpec)
deriving Repr

/-- One render cycle of the script: the filter of lines 50-53 is computed
once and every downstream consumer receives that one value.  The loaded
table is threaded through unchanged (no stage assigns into `df`), so the
cycle returns it alongside the page. -/
def renderCycle (df : Table) (selected_fields : List String) (lo hi : ℚ) :
    Table × PageOutput :=
  let f := filtered df selected_fields lo hi
  (df,
    { describeInput := f
      charts :=
        [Except.ok (plot_gpa_hist f), Except.ok (plot_salary_by_field f),
         Except.ok (plot_salary_by_promotion_years f),
         Except.ok (plot_job_offers_by_networking f), Except.ok (plot_gpa_vs_promotion f),
         plot_satisfaction_by_gender f, plot_worklife_by_field f,
         Except.ok (plot_joblevel_pie f), Except.ok (plot_offers_vs_certifications f),
         Except.ok (plot_satisfaction_heatmap f)] })

/-- Row constructor for concrete test tables: field of study, GPA and
starting salary given, every other cell missing. -/
def mkRow (f : Option String) (g sal : Option ℚ) : Row :=
  { Field_of_Study := f, University_GPA := g, Starting_Salary := sal,
    Years_to_Promotion := none, Networking_Score := none, Job_Offers := none,
    Gender := none, Career_Satisfaction := none, WorkLifeBalance_Score := none,
    Current_Job_Level := none, Certifications := none }

/-- Four rows with GPAs 2.9, 3.0, 3.0 and 3.1, distinguished by salary; the
concrete table of the spec's GPA boundary example. -/
def exGpaRows : Table :=
  [mkRow (some "CS") (some (29/10)) (some 1), mkRow (some "CS") (some 3) (some 2),
   mkRow (some "CS") (some 3) (some 3), mkRow (some "CS") (some (31/10)) (some 4)]

/-- One row whose grouping key is present but whose salary is missing. -/
def exNullSalaryTable : Table := [mkRow (some "CS") none none]

/-- A group with one missing and one present salary value. -/
def exSkipTable : Table :=
  [mkRow (some "CS") none none, mkRow (some "CS") none (some 100)]

/-- A one-row table with no missing cell among the filtered columns. -/
def exOneRowTable : Table := [mkRow (some "CS") (some 3) (some 1)]

/-- A table whose University_GPA column is entirely missing. -/
def exAllNullGpaTable : Table := [mkRow (some "CS") none (some 1)]

/-- A one-row table with a gender but a missing Career_Satisfaction. -/
def exGenderTable : Table := [{ mkRow (some "CS") none none with Gender := some "F" }]

/-- A row whose grouping-key columns are all populated while every value
column that gets averaged is missing. -/
def exKeysRow : Row :=
  { Field_of_Study := some "CS", University_GPA := none, Starting_Salary := none,
    Years_to_Promotion := some 2, Networking_Score := some 5, Job_Offers := none,
    Gender := some "F", Career_Satisfaction := none, WorkLifeBalance_Score := none,
    Current_Job_Level := some "Entry", Certifications := some 1 }

/-- One-row table built from `exKeysRow`. -/
def exKeysTable : Table := [exKeysRow]

theorem mem_uniqueFirstAux [DecidableEq α] (a : α) :
    ∀ (l seen : List α), a ∈ uniqueFirstAux seen l ↔ a ∈ l ∧ a ∉ seen := by
  intro l
  induction l with
  | nil => intro seen; simp [uniqueFirstAux]
  | cons x xs ih =>
    intro seen
    rw [uniqueFirstAux]
    by_cases hx : x ∈ seen
    · rw [if_pos hx, ih]
      constructor
      · rintro ⟨h1, h2⟩
        exact ⟨List.mem_cons_of_mem _ h1, h2⟩
      · rintro ⟨h1, h2⟩
        rcases List.mem_cons.mp h1 with rfl | h1
        · exact absurd hx h2
        · exact ⟨h1, h2⟩
    · rw [if_neg hx]
      simp only [List.mem_cons, ih]
      constructor
      · rintro (rfl | ⟨h1, h2⟩)
        · exact ⟨Or.inl rfl, hx⟩
        · exact ⟨Or.inr h1, fun hc => h2 (Or.inr hc)⟩
      · rintro ⟨rfl | h1, h2⟩
        · exact Or.inl rfl
        · by_cases hax : a = x
          · exact Or.inl hax
          · exact Or.inr ⟨h1, fun hc => hc.elim hax h2⟩

theorem mem_uniqueFirst [DecidableEq α] (a : α) (l : List α) :
    a ∈ uniqueFirst l ↔ a ∈ l := by
  rw [uniqueFirst, mem_uniqueFirstAux]
  simp

theorem perm_stableInsertBy (keep : α → α → Bool) (x : α) :
    ∀ l : List α, List.Perm (stableInsertBy keep x l) (x :: l) := by
  intro l
  induction l with
  | nil => simp [stableInsertBy]
  | cons y ys ih =>
    rw [stableInsertBy]
    by_cases hk : keep y x
    · rw [if_pos hk]
      exact (List.Perm.cons y ih).trans (List.Perm.swap x y ys)
    · rw [if_neg hk]

theorem perm_stableSortBy_aux (keep : α → α → Bool) :
    ∀ (l acc : List α),
      List.Perm (l.foldl (fun acc x => stableInsertBy keep x acc) acc) (acc ++ l) := by
  intro l
  induction l with
  | nil => intro acc; simp
  | cons x xs ih =>
    intro acc
    rw [List.foldl_cons]
    refine (ih (stableInsertBy keep x acc)).trans ?_
    refine (List.Perm.append_right xs (perm_stableInsertBy keep x acc)).trans ?_
    exact List.perm_middle.symm

theorem perm_stableSortBy (keep : α → α → Bool) (l : List α) :
    List.Perm (stableSortBy keep l) l := by
  simpa using perm_stableSortBy_aux keep l []

theorem mem_stableSortBy (keep : α → α → Bool) (a : α) (l : List α) :
    a ∈ stableSortBy keep l ↔ a ∈ l :=
  (perm_stableSortBy keep l).mem_iff

theorem listMin_eq_none_iff : ∀ l : List ℚ, listMin l = none ↔ l = [] := by
  intro l
  cases l with
  | nil => simp [listMin]
  | cons x xs =>
    rw [listMin]
    cases listMin xs <;> simp

theorem listMin_spec : ∀ (l : List ℚ) (m : ℚ), listMin l = some m → m ∈ l ∧ ∀ x ∈ l, m ≤ x := by
  intro l
  induction l with
  | nil => intro m h; simp [listMin] at h
  | cons x xs ih =>
    intro m h
    rw [listMin] at h
    rcases hm : listMin xs with _ | m0
    · rw [hm] at h
      have hxs : xs = [] := (listMin_eq_none_iff xs).mp hm
      cases h
      subst hxs
      exact ⟨List.mem_cons_self _ _, by simp⟩
    · rw [hm] at h
      cases h
      rcases ih m0 hm with ⟨hmem, hle⟩
      constructor
      · rcases le_total x m0 with hx | hx
        · rw [min_eq_left hx]
          exact List.mem_cons_self _ _
        · rw [min_eq_right hx]
          exact List.mem_cons_of_mem _ hmem
      · intro z hz
        rcases List.mem_cons.mp hz with rfl | hz2
        · exact min_le_left _ _
        · exact le_trans (min_le_right _ _) (hle z hz2)

theorem listMax_eq_none_iff : ∀ l : List ℚ, listMax l = none ↔ l = [] := by
  intro l
  cases l with
  | nil => simp [listMax]
  | cons x xs =>
    rw [listMax]
    cases listMax xs <;> simp

theorem listMax_spec : ∀ (l : List ℚ) (m : ℚ), listMax l = some m → m ∈ l ∧ ∀ x ∈ l, x ≤ m := by
  intro l
  induction l with
  | nil => intro m h; simp [listMax] at h
  | cons x xs ih =>
    intro m h
    rw [listMax] at h
    rcases hm : listMax xs with _ | m0
    · rw [hm] at h
      have hxs : xs = [] := (listMax_eq_none_iff xs).mp hm
      cases h
      subst hxs
      exact ⟨List.mem_cons_self _ _, by simp⟩
    · rw [hm] at h
      cases h
      rcases ih m0 hm with ⟨hmem, hle⟩
      constructor
      · rcases le_total x m0 with hx | hx
        · rw [max_eq_right hx]
          exact List.mem_cons_of_mem _ hmem
        · rw [max_eq_left hx]
          exact List.mem_cons_self _ _
      · intro z hz
        rcases List.mem_cons.mp hz with rfl | hz2
        · exact le_max_left _ _
        · exact le_trans (hle z hz2) (le_max_right _ _)

theorem mem_presentEntries (l : List (α × Option ℚ)) (q : α × ℚ) :
    q ∈ presentEntries l ↔ (q.1, some q.2) ∈ l := by
  rw [presentEntries, List.mem_filterMap]
  constructor
  · rintro ⟨p, hp, hq⟩
    rcases hv : p.2 with _ | v
    · rw [hv] at hq
      simp at hq
    · rw [hv] at hq
      cases hq
      have : p = (p.1, some v) := by
        rw [← hv]
      rw [← this]
      exact hp
  · intro hq
    refine ⟨(q.1, some q.2), hq, rfl⟩

theorem mem_missingEntries (l : List (α × Option ℚ)) (p : α × Option ℚ) :
    p ∈ missingEntries l ↔ p ∈ l ∧ p.2 = none := by
  rw [missingEntries, List.mem_filter]
  simp [Option.isNone_iff_eq_none]

theorem fieldIsin_iff (cats : List String) (r : Row) :
    fieldIsin cats r = true ↔ ∃ f, r.Field_of_Study = some f ∧ f ∈ cats := by
  rcases h : r.Field_of_Study with _ | f <;> simp [fieldIsin, h]

theorem gpaBetween_iff (lo hi : ℚ) (r : Row) :
    gpaBetween lo hi r = true ↔ ∃ g, r.University_GPA = some g ∧ lo ≤ g ∧ g ≤ hi := by
  rcases h : r.University_GPA with _ | g <;> simp [gpaBetween, h]

/-!  Claim theorems.  -/

/-- C1: the Filter Engine output contains exactly the input rows whose
Field_of_Study is a member of the category set and whose University_GPA lies
in the inclusive interval; a row missing either cell never matches.  With
range (3.0, 3.0) over GPAs 2.9, 3.0, 3.0, 3.1 exactly the two rows equal to
3.0 are kept. -/
theorem filtered_exact_characterization :
    (∀ (df : Table) (cats : List String) (lo hi : ℚ) (r : Row),
      r ∈ filtered df cats lo hi ↔
        r ∈ df ∧ (∃ f, r.Field_of_Study = some f ∧ f ∈ cats) ∧
          (∃ g, r.University_GPA = some g ∧ lo ≤ g ∧ g ≤ hi)) ∧
    filtered exGpaRows ["CS"] 3 3 =
      [mkRow (some "CS") (some 3) (some 2), mkRow (some "CS") (some 3) (some 3)] := by
  constructor
  · intro df cats lo hi r
    rw [filtered, List.mem_filter, Bool.and_eq_true, fieldIsin_iff, gpaBetween_iff]
  · norm_num [filtered, exGpaRows, mkRow, fieldIsin, gpaBetween, List.filter]

/-- C6: filtering with an empty category set gives an empty table, and an
inverted GPA interval (min above max) also gives an empty table; both are
ordinary empty results of the total filter function, not errors. -/
theorem filtered_empty_policies :
    (∀ (df : Table) (lo hi : ℚ), filtered df [] lo hi = []) ∧
    (∀ (df : Table) (cats : List String) (lo hi : ℚ), hi < lo →
      filtered df cats lo hi = []) := by
  constructor
  · intro df lo hi
    rw [filtered, List.filter_eq_nil_iff]
    intro r _
    rw [Bool.and_eq_true]
    rintro ⟨hf, -⟩
    rcases (fieldIsin_iff [] r).mp hf with ⟨f, -, hmem⟩
    simp at hmem
  · intro df cats lo hi hlt
    rw [filtered, List.filter_eq_nil_iff]
    intro r _
    rw [Bool.and_eq_true]
    rintro ⟨-, hg⟩
    rcases (gpaBetween_iff lo hi r).mp hg with ⟨g, -, h1, h2⟩
    exact absurd (le_trans h1 h2) (not_le_of_lt hlt)

/-- Witness for C6 at a concrete table: empty category set, and range
(3, 2) with min above max. -/
theorem filtered_empty_policies_witness :
    filtered exGpaRows [] 3 3 = [] ∧ filtered exGpaRows ["CS"] 3 2 = [] :=
  ⟨filtered_empty_policies.1 exGpaRows 3 3,
   filtered_empty_policies.2 exGpaRows ["CS"] 3 2 (by norm_num)⟩

/-- C7: the Filter Engine is deterministic — equal inputs give equal
outputs — and its output is a subsequence of the input table, so retained
rows keep their original relative order. -/
theorem filtered_deterministic_ordered :
    (∀ (dfa dfb : Table) (ca cb : List String) (loa lob hia hib : ℚ),
      dfa = dfb → ca = cb → loa = lob → hia = hib →
      filtered dfa ca loa hia = filtered dfb cb lob hib) ∧
    (∀ (df : Table) (cats : List String) (lo hi : ℚ),
      (filtered df cats lo hi).Sublist df) := by
  constructor
  · intro dfa dfb ca cb loa lob hia hib h1 h2 h3 h4
    rw [h1, h2, h3, h4]
  · intro df cats lo hi
    exact List.filter_sublist df

/-- Witness for C7: two runs at the same concrete inputs agree, and the
concrete output is a subsequence of the input. -/
theorem filtered_deterministic_ordered_witness :
    filtered exGpaRows ["CS"] 3 3 = filtered exGpaRows ["CS"] 3 3 ∧
    (filtered exGpaRows ["CS"] 3 3).Sublist exGpaRows :=
  ⟨filtered_deterministic_ordered.1 exGpaRows exGpaRows ["CS"] ["CS"] 3 3 3 3 rfl rfl rfl rfl,
   filtered_deterministic_ordered.2 exGpaRows ["CS"] 3 3⟩

/-- C8: one full render cycle (filter, the ten charts, the overview table)
returns the loaded table unchanged — no stage mutates it — and the filtered
view it displays is a subsequence, hence a subset, of the record table's
rows. -/
theorem renderCycle_immutable :
    ∀ (df : Table) (cats : List String) (lo hi : ℚ),
      (renderCycle df cats lo hi).1 = df ∧
      ((renderCycle df cats lo hi).2.describeInput).Sublist df := by
  intro df cats lo hi
  exact ⟨rfl, List.filter_sublist df⟩

/-- C9: within one render cycle the filtered view is a single value: the
overview table and all ten charts are computed from the very same
application of the Filter Engine, so every chart depicts the identical row
subset. -/
theorem renderCycle_single_view :
    ∀ (df : Table) (cats : List String) (lo hi : ℚ),
      ∃ fv, fv = filtered df cats lo hi ∧
        (renderCycle df cats lo hi).2.describeInput = fv ∧
        (renderCycle df cats lo hi).2.charts =
          [Except.ok (plot_gpa_hist fv), Except.ok (plot_salary_by_field fv),
           Except.ok (plot_salary_by_promotion_years fv),
           Except.ok (plot_job_offers_by_networking fv), Except.ok (plot_gpa_vs_promotion fv),
           plot_satisfaction_by_gender fv, plot_worklife_by_field fv,
           Except.ok (plot_joblevel_pie fv), Except.ok (plot_offers_vs_certifications fv),
           Except.ok (plot_satisfaction_heatmap fv)] := by
  intro df cats lo hi
  exact ⟨filtered df cats lo hi, rfl, rfl, rfl⟩

/-- C10: the default GPA slider bounds are the observed minimum and maximum
of the University_GPA column and are defined exactly when some row has a
non-missing value there; on an empty or all-missing column the min and max
are undefined, so constructing the filter defaults is a partial operation
that succeeds only under that precondition. -/
theorem gpa_defaults_precondition :
    (∀ df : Table, (∃ r ∈ df, (r.University_GPA).isSome) →
      ∃ lo hi, gpa_defaults df = some (lo, hi) ∧ lo ∈ gpaValues df ∧ hi ∈ gpaValues df ∧
        (∀ g ∈ gpaValues df, lo ≤ g ∧ g ≤ hi) ∧
        filter_defaults df = some (field_options df, lo, hi)) ∧
    (∀ df : Table, (∀ r ∈ df, r.University_GPA = none) → filter_defaults df = none) := by
  constructor
  · rintro df ⟨r, hr, hsome⟩
    rcases Option.isSome_iff_exists.mp hsome with ⟨g, hg⟩
    have hgv : g ∈ gpaValues df := List.mem_filterMap.mpr ⟨r, hr, hg⟩
    have hne : gpaValues df ≠ [] := List.ne_nil_of_mem hgv
    obtain ⟨lo, hmin⟩ : ∃ lo, listMin (gpaValues df) = some lo := by
      rcases h : listMin (gpaValues df) with _ | lo
      · exact absurd ((listMin_eq_none_iff _).mp h) hne
      · exact ⟨lo, rfl⟩
    obtain ⟨hi, hmax⟩ : ∃ hi, listMax (gpaValues df) = some hi := by
      rcases h : listMax (gpaValues df) with _ | hi
      · exact absurd ((listMax_eq_none_iff _).mp h) hne
      · exact ⟨hi, rfl⟩
    refine ⟨lo, hi, ?_, (listMin_spec _ _ hmin).1, (listMax_spec _ _ hmax).1, ?_, ?_⟩
    · rw [gpa_defaults, hmin, hmax]
    · intro g2 hg2
      exact ⟨(listMin_spec _ _ hmin).2 g2 hg2, (listMax_spec _ _ hmax).2 g2 hg2⟩
    · rw [filter_defaults, gpa_defaults, hmin, hmax]
  · intro df hall
    have hnil : gpaValues df = [] := List.filterMap_eq_nil_iff.mpr hall
    rw [filter_defaults, gpa_defaults, hnil]
    rfl

/-- Witness for C10: a table with one non-missing GPA gets defaults, a table
whose GPA column is entirely missing gets none. -/
theorem gpa_defaults_precondition_witness :
    (∃ lo hi, gpa_defaults exOneRowTable = some (lo, hi) ∧ lo ∈ gpaValues exOneRowTable ∧
      hi ∈ gpaValues exOneRowTable ∧ (∀ g ∈ gpaValues exOneRowTable, lo ≤ g ∧ g ≤ hi) ∧
      filter_defaults exOneRowTable = some (field_options exOneRowTable, lo, hi)) ∧
    filter_defaults exAllNullGpaTable = none :=
  ⟨gpa_defaults_precondition.1 exOneRowTable
      ⟨mkRow (some "CS") (some 3) (some 1), by rw [exOneRowTable]; exact List.mem_singleton.mpr rfl, rfl⟩,
   gpa_defaults_precondition.2 exAllNullGpaTable (by
      intro r hr
      rw [exAllNullGpaTable, List.mem_singleton] at hr
      subst hr
      rfl)⟩

/-- C2 (amended): on the empty filtered table every aggregation in the
catalog returns an empty result; no chart builder renders an explicit
"no data" placeholder, which no branch of the source can produce; eight of
the ten builders, among them the job-level pie chart, return their ordinary
chart spec with empty data series without failing, while the
satisfaction-by-gender violin builder and the worklife-by-field box builder
raise a ValueError on the empty table. -/
theorem empty_view_aggregations_and_charts :
    avg_salary_by_field [] = [] ∧ avg_salary_by_years [] = [] ∧
    avg_offers_by_network [] = [] ∧ genders [] = [] ∧ satisfaction_data [] = [] ∧
    wlb_fields [] = [] ∧ wlb_data [] = [] ∧ job_counts [] = [] ∧
    avg_offers [] = [] ∧ avg_sat [] = [] ∧
    plot_gpa_hist [] =
      ChartSpec.hist [] 10 "Histogram of University GPA" "University_GPA" "Frequency" ∧
    plot_salary_by_field [] =
      ChartSpec.bar [] [] "Average Starting Salary by Field of Study" "Field_of_Study"
        "Average Starting Salary" ∧
    plot_salary_by_promotion_years [] =
      ChartSpec.line [] [] "Average Starting Salary by Years to Promotion"
        "Years to Promotion" "Average Starting Salary" ∧
    plot_job_offers_by_networking [] =
      ChartSpec.line [] [] "Average Job Offers by Networking Score" "Networking_Score"
        "Average Job Offers" ∧
    plot_gpa_vs_promotion [] =
      ChartSpec.scatter [] [] "Do Higher GPAs Lead to Faster Promotions?"
        "Years to Promotion" "University GPA" ∧
    plot_satisfaction_by_gender [] =
      Except.error
        "ValueError: zero-size array to reduction operation minimum which has no identity" ∧
    plot_worklife_by_field [] =
      Except.error "ValueError: Dimensions of labels and X must be compatible" ∧
    plot_joblevel_pie [] =
      ChartSpec.pie [] [] "Distribution of Job Levels Among Graduates" ∧
    plot_offers_vs_certifications [] =
      ChartSpec.line [] [] "Job Offers vs Certifications" "Certifications"
        "Average Job Offers" ∧
    plot_satisfaction_heatmap [] =
      ChartSpec.heatmap [] [] "Average Career Satisfaction by Major" :=
  ⟨rfl, rfl, rfl, rfl, rfl, rfl, rfl, rfl, rfl, rfl, rfl, rfl, rfl, rfl, rfl, rfl, rfl,
   rfl, rfl, rfl⟩

/-- Counterexample for C2: on the empty table the satisfaction-by-gender
violin builder raises a ValueError instead of not raising, and the pie
builder returns an ordinary empty-series chart spec, not the explicit
"no data" placeholder the claim requires. -/
theorem empty_view_no_placeholder_cex :
    plot_satisfaction_by_gender [] =
      Except.error
        "ValueError: zero-size array to reduction operation minimum which has no identity" ∧
    plot_worklife_by_field [] =
      Except.error "ValueError: Dimensions of labels and X must be compatible" ∧
    plot_joblevel_pie [] ≠ ChartSpec.noData :=
  ⟨rfl, rfl, fun h => ChartSpec.noConfusion h⟩

theorem mem_sortValuesDesc_key (l : List (α × Option ℚ)) (p : α × Option ℚ)
    (hp : p ∈ sortValuesDesc l) : ∃ ov, (p.1, ov) ∈ l := by
  rw [sortValuesDesc] at hp
  rcases List.mem_append.mp hp with h | h
  · rcases List.mem_map.mp h with ⟨q, hq, hpq⟩
    rw [List.mem_reverse, mem_stableSortBy, mem_presentEntries] at hq
    cases hpq
    exact ⟨some q.2, hq⟩
  · rw [mem_missingEntries] at h
    refine ⟨p.2, ?_⟩
    have hpe : ((p.1 : α), p.2) = p := rfl
    rw [hpe]
    exact h.1

theorem mem_groupMeanStr_key (df : Table) (key : Row → Option String)
    (val : Row → Option ℚ) (p : String × Option ℚ)
    (hp : p ∈ groupMeanStr df key val) : ∃ r ∈ df, key r = some p.1 := by
  rw [groupMeanStr] at hp
  rcases List.mem_map.mp hp with ⟨k, hk, hkp⟩
  cases hkp
  rw [groupKeysStr, mem_stableSortBy, mem_uniqueFirst] at hk
  rcases List.mem_filterMap.mp hk with ⟨r, hr, hrk⟩
  exact ⟨r, hr, hrk⟩

theorem mem_groupMeanQ_key (df : Table) (key : Row → Option ℚ)
    (val : Row → Option ℚ) (p : ℚ × Option ℚ)
    (hp : p ∈ groupMeanQ df key val) : ∃ r ∈ df, key r = some p.1 := by
  rw [groupMeanQ] at hp
  rcases List.mem_map.mp hp with ⟨k, hk, hkp⟩
  cases hkp
  rw [groupKeysQ, mem_stableSortBy, mem_uniqueFirst] at hk
  rcases List.mem_filterMap.mp hk with ⟨r, hr, hrk⟩
  exact ⟨r, hr, hrk⟩

theorem mem_sortValuesAsc_key (l : List (α × Option ℚ)) (p : α × Option ℚ)
    (hp : p ∈ sortValuesAsc l) : ∃ ov, (p.1, ov) ∈ l := by
  rw [sortValuesAsc] at hp
  rcases List.mem_append.mp hp with h | h
  · rcases List.mem_map.mp h with ⟨q, hq, hpq⟩
    rw [mem_stableSortBy, mem_presentEntries] at hq
    cases hpq
    exact ⟨some q.2, hq⟩
  · rw [mem_missingEntries] at h
    refine ⟨p.2, ?_⟩
    have hpe : ((p.1 : α), p.2) = p := rfl
    rw [hpe]
    exact h.1

/-- C5 (amended): aggregations never build a group from a missing grouping
key — every group label comes from a non-missing key cell of some row — and
the grouped means skip missing value cells; but a group all of whose values
are missing is retained with an undefined (NaN) mean rather than omitted,
and the raw-values-per-group aggregations keep missing value cells inside
their groups. -/
theorem agg_null_policy :
    (∀ (df : Table) (p : String × Option ℚ), p ∈ avg_salary_by_field df →
      ∃ r ∈ df, r.Field_of_Study = some p.1) ∧
    (∀ (df : Table) (p : ℚ × Option ℚ), p ∈ avg_salary_by_years df →
      ∃ r ∈ df, r.Years_to_Promotion = some p.1) ∧
    (∀ (df : Table) (p : ℚ × Option ℚ), p ∈ avg_offers_by_network df →
      ∃ r ∈ df, r.Networking_Score = some p.1) ∧
    (∀ (df : Table) (p : ℚ × Option ℚ), p ∈ avg_offers df →
      ∃ r ∈ df, r.Certifications = some p.1) ∧
    (∀ (df : Table) (p : String × Nat), p ∈ job_counts df →
      ∃ r ∈ df, r.Current_Job_Level = some p.1) ∧
    (∀ (df : Table) (p : String × Option ℚ), p ∈ avg_sat df →
      ∃ r ∈ df, r.Field_of_Study = some p.1) ∧
    (∀ (df : Table) (g : String), g ∈ genders df → ∃ r ∈ df, r.Gender = some g) ∧
    (∀ (df : Table) (f : String), f ∈ wlb_fields df → ∃ r ∈ df, r.Field_of_Study = some f) ∧
    avg_salary_by_field exSkipTable = [("CS", some 100)] ∧
    avg_salary_by_field exNullSalaryTable = [("CS", none)] ∧
    wlb_data exNullSalaryTable = [[none]] := by
  refine ⟨?_, ?_, ?_, ?_, ?_, ?_, ?_, ?_, ?_, rfl, rfl⟩
  · intro df p hp
    rcases mem_sortValuesDesc_key _ p hp with ⟨ov, hov⟩
    exact mem_groupMeanStr_key df _ _ (p.1, ov) hov
  · intro df p hp
    rw [avg_salary_by_years, sortIndexQ, mem_stableSortBy] at hp
    exact mem_groupMeanQ_key df _ _ p hp
  · intro df p hp
    rw [avg_offers_by_network, sortIndexQ, mem_stableSortBy] at hp
    exact mem_groupMeanQ_key df _ _ p hp
  · intro df p hp
    rw [avg_offers, sortIndexQ, mem_stableSortBy] at hp
    exact mem_groupMeanQ_key df _ _ p hp
  · intro df p hp
    rw [job_counts, List.mem_reverse, mem_stableSortBy] at hp
    rcases List.mem_map.mp hp with ⟨k, hk, hkp⟩
    cases hkp
    rw [mem_uniqueFirst] at hk
    exact List.mem_filterMap.mp hk
  · intro df p hp
    rw [avg_sat] at hp
    rcases mem_sortValuesAsc_key _ p hp with ⟨ov, hov⟩
    exact mem_groupMeanStr_key df _ _ (p.1, ov) hov
  · intro df g hg
    rw [genders, mem_uniqueFirst] at hg
    exact List.mem_filterMap.mp hg
  · intro df f hf
    rw [wlb_fields, mem_uniqueFirst] at hf
    exact List.mem_filterMap.mp hf
  · norm_num [avg_salary_by_field, groupMeanStr, groupKeysStr, groupVals, meanOpt,
      uniqueFirst, uniqueFirstAux, stableSortBy, stableInsertBy, sortValuesDesc,
      presentEntries, missingEntries, valueLe, exSkipTable, mkRow,
      List.filterMap_cons, List.isEmpty, List.sum_cons, List.sum_nil]

/-- Witness for C5: every general membership clause applied at a concrete
table whose group key appears on a row with only missing value cells. -/
theorem agg_null_policy_witness :
    (∃ r ∈ exNullSalaryTable, r.Field_of_Study = some "CS") ∧
    (∃ r ∈ exKeysTable, r.Years_to_Promotion = some 2) ∧
    (∃ r ∈ exKeysTable, r.Networking_Score = some 5) ∧
    (∃ r ∈ exKeysTable, r.Certifications = some 1) ∧
    (∃ r ∈ exKeysTable, r.Current_Job_Level = some "Entry") ∧
    (∃ r ∈ exKeysTable, r.Field_of_Study = some "CS") ∧
    (∃ r ∈ exGenderTable, r.Gender = some "F") ∧
    (∃ r ∈ exSkipTable, r.Field_of_Study = some "CS") :=
  ⟨agg_null_policy.1 exNullSalaryTable ("CS", none) (by decide),
   agg_null_policy.2.1 exKeysTable (2, none) (by decide),
   agg_null_policy.2.2.1 exKeysTable (5, none) (by decide),
   agg_null_policy.2.2.2.1 exKeysTable (1, none) (by decide),
   agg_null_policy.2.2.2.2.1 exKeysTable ("Entry", 1) (by decide),
   agg_null_policy.2.2.2.2.2.1 exKeysTable ("CS", none) (by decide),
   agg_null_policy.2.2.2.2.2.2.1 exGenderTable "F" (by decide),
   agg_null_policy.2.2.2.2.2.2.2.1 exSkipTable "CS" (by decide)⟩

/-- Counterexample for C5: a group whose only salary cell is missing is not
omitted — it appears with an undefined mean — and the raw work-life-balance
group keeps its missing value. -/
theorem agg_null_policy_cex :
    avg_salary_by_field exNullSalaryTable = [("CS", (none : Option ℚ))] ∧
    avg_salary_by_field exNullSalaryTable ≠ [] ∧
    wlb_data exNullSalaryTable = [[(none : Option ℚ)]] :=
  ⟨rfl, by decide, rfl⟩

end CareerDashboard
